import Mathlib

/-!
# serviceb: simulated work handlers and their instrumentation

A shallow embedding of `tracing/01/serviceb/serviceb.go`.

* The two handler closures (`workHandler`, `slowWorkHandler`) are functions from
  the value of the captured variable `log`, the response writer, the request,
  the state of the random source and the clock reading to an `Outcome`:
  the new value of `log`, the response, the log lines emitted and the time slept.
* `main` is the bootstrap up to (not including) `http.ListenAndServe`.
* The library calls the file makes (`logrus`, `net/http`, `math/rand`,
  `prometheus`, `promhttp`, `os`, `strconv`) are embedded by what they do to
  the data the handlers see; each such definition says which call it stands for.
-/

namespace Serviceb

/-! ## logrus -/

/-- A value stored under a key of `logrus.Fields`. `seconds` is the result of
`time.Duration.Seconds()`, kept as the nanosecond count of the duration. -/
inductive Value where
  | str (s : String)
  | int (n : Int)
  | seconds (nanos : Nat)
  deriving DecidableEq, Repr

/-- The type `logrus.Fields`, a map from keys to values, kept as an association
list without duplicate keys, in the order of first insertion. -/
abbrev Fields := List (String × Value)

/-- Map assignment `data[k] = v`: replaces the binding of `k`, or adds one. -/
def setField : Fields → String → Value → Fields
  | [], k, v => [(k, v)]
  | (k', v') :: rest, k, v =>
    if k' = k then (k, v) :: rest else (k', v') :: setField rest k v

/-- Map lookup `data[k]`. -/
def getField (d : Fields) (k : String) : Option Value :=
  List.lookup k d

inductive Level where
  | panic | fatal | error | warn | info | debug | trace
  deriving DecidableEq, Repr

/-- What reaches the log sink for one call of `Info`, `Error`, ... -/
structure LogLine where
  level : Level
  msg : String
  data : Fields
  deriving DecidableEq, Repr

/-- The type `logrus.Entry` (a `logrus.FieldLogger`): the fields it carries. -/
structure Entry where
  Data : Fields
  deriving DecidableEq, Repr

/-- `entry.WithFields(fields)`: a new entry whose data is a copy of the
receiver's data with every field of `fields` assigned over it. -/
def Entry.WithFields (entry : Entry) (fields : Fields) : Entry :=
  ⟨fields.foldl (fun data kv => setField data kv.1 kv.2) entry.Data⟩

/-- `entry.WithField(key, value)` is `entry.WithFields(Fields{key: value})`. -/
def Entry.WithField (entry : Entry) (key : String) (value : Value) : Entry :=
  entry.WithFields [(key, value)]

/-- `entry.Info()` with no arguments: one info-level line, empty message. -/
def Entry.Info (entry : Entry) : LogLine :=
  ⟨Level.info, "", entry.Data⟩

/-- `entry.Info(msg)`. -/
def Entry.InfoMsg (entry : Entry) (msg : String) : LogLine :=
  ⟨Level.info, msg, entry.Data⟩

/-- `entry.Error(msg)`: one error-level line. -/
def Entry.Error (entry : Entry) (msg : String) : LogLine :=
  ⟨Level.error, msg, entry.Data⟩

/-- `logrus.WithField(key, value)` on the standard logger: an entry with that
one field. -/
def logrusWithField (key : String) (value : Value) : Entry :=
  Entry.WithField ⟨[]⟩ key value

/-! ## net/http -/

def StatusOK : Nat := 200
def StatusBadRequest : Nat := 400
def StatusInternalServerError : Nat := 500

/-- The part of `http.Request` the handlers read: `r.Method`, the result of
`r.URL.String()`, and `r.Header` (keys in canonical form). -/
structure Request where
  Method : String
  URL : String
  Header : List (String × List String)
  deriving DecidableEq, Repr

/-- Canonical form of a header key (`textproto.CanonicalMIMEHeaderKey` on a
key of letters, digits and hyphens): the first letter and every letter after a
hyphen in upper case, the others in lower case. -/
def canonicalChars : Bool → List Char → List Char
  | _, [] => []
  | up, c :: cs => (if up then c.toUpper else c.toLower) :: canonicalChars (c = '-') cs

/-- Canonical form of a header key, as a string. -/
def canonicalKey (key : String) : String :=
  String.mk (canonicalChars true key.data)

/-- `r.Header.Get(key)`: the first value under the canonical form of `key`,
`""` when there is none. -/
def headerGet (h : List (String × List String)) (key : String) : String :=
  match List.lookup (canonicalKey key) h with
  | some (v :: _) => v
  | _ => ""

/-- An `http.ResponseWriter`: the status code written (`none` while no header
has been written), the header map and the body bytes. -/
structure ResponseWriter where
  status : Option Nat
  header : List (String × String)
  body : List Nat
  deriving DecidableEq, Repr

/-- The response writer the server hands to a handler. -/
def ResponseWriter.fresh : ResponseWriter := ⟨none, [], []⟩

/-- `w.WriteHeader(code)`: the first call fixes the status, later ones are
ignored. -/
def ResponseWriter.WriteHeader (w : ResponseWriter) (code : Nat) : ResponseWriter :=
  match w.status with
  | none => { w with status := some code }
  | some _ => w

/-- `w.Write(b)`: writes the header with `StatusOK` when none was written, then
appends `b` to the body. -/
def ResponseWriter.Write (w : ResponseWriter) (b : List Nat) : ResponseWriter :=
  let w1 := w.WriteHeader StatusOK
  { w1 with body := w1.body ++ b }

/-- The status code sent on the wire: the one written, `StatusOK` when the
handler wrote none. -/
def ResponseWriter.code (w : ResponseWriter) : Nat :=
  w.status.getD StatusOK

/-- The UTF-8 encoding of one code point. -/
def utf8 (c : Char) : List Nat :=
  let v := c.toNat
  if v < 0x80 then [v]
  else if v < 0x800 then [0xC0 + v / 64, 0x80 + v % 64]
  else if v < 0x10000 then [0xE0 + v / 4096, 0x80 + v / 64 % 64, 0x80 + v % 64]
  else [0xF0 + v / 262144, 0x80 + v / 4096 % 64, 0x80 + v / 64 % 64, 0x80 + v % 64]

/-- Conversion `[]byte(s)` of a string literal: its UTF-8 bytes. -/
def bytes (s : String) : List Nat :=
  s.data.flatMap utf8

def headerDel (h : List (String × String)) (k : String) : List (String × String) :=
  h.filter (fun kv => kv.1 ≠ k)

def headerSet (h : List (String × String)) (k v : String) : List (String × String) :=
  headerDel h k ++ [(k, v)]

/-- `http.Error(w, error, code)`: drops `Content-Length`, sets the plain-text
content type and `nosniff`, writes the header with `code`, then prints `error`
and a newline to the body (`fmt.Fprintln(w, error)`). -/
def httpError (w : ResponseWriter) (error : String) (code : Nat) : ResponseWriter :=
  let h := headerDel w.header "Content-Length"
  let h := headerSet h "Content-Type" "text/plain; charset=utf-8"
  let h := headerSet h "X-Content-Type-Options" "nosniff"
  let w1 : ResponseWriter := { w with header := h }
  let w2 := w1.WriteHeader code
  w2.Write (bytes (error ++ "\n"))

/-! ## math/rand, time -/

/-- The state of the pseudo-random source, seen through `rand.Intn`: for
`0 < n`, `rand.Intn(n)` is an integer of the half-open interval `[0, n)`. -/
structure Source where
  Intn : Nat → Nat
  Intn_lt : ∀ n, 0 < n → Intn n < n

/-- The source whose next `Intn(n)` returns `v` (for `v < n`). -/
def Source.returning (v : Nat) : Source :=
  ⟨fun n => v % n, fun _ h => Nat.mod_lt _ h⟩

/-- The values `rand.Intn(n)` can return, each equally likely. -/
def intnValues (n : Nat) : List Nat :=
  List.range n

/-- The constant `time.Millisecond`, in nanoseconds (the unit of
`time.Duration`). -/
def Millisecond : Nat := 1000000

/-! ## The handlers -/

/-- What one run of a handler closure does. -/
structure Outcome where
  /-- value of the captured variable `log` when the closure returns -/
  log : Entry
  /-- the response writer when the closure returns -/
  w : ResponseWriter
  /-- log lines emitted, in order -/
  lines : List LogLine
  /-- argument of `time.Sleep`, in nanoseconds -/
  slept : Nat
  /-- the draw `s` -/
  s : Nat
  deriving DecidableEq, Repr

/-- The closure returned by `workHandler(log)`. `log` is the current value of
the captured variable, `src` the random source, `elapsed` what
`time.Since(t)` gives when the deferred function runs. -/
def workHandler (log : Entry) (w : ResponseWriter) (r : Request) (src : Source)
    (elapsed : Nat) : Outcome :=
  let id := headerGet r.Header "X-Request-ID"
  let log := log.WithFields
    [("method", .str r.Method), ("path", .str r.URL), ("request_id", .str id)]
  let status := StatusOK
  let s := src.Intn 99 + 1
  let log := log.WithField "s" (.int s)
  let slept := s * Millisecond
  if s ≤ 25 then
    let status := StatusInternalServerError
    let l := log.Error "OMG Error!"
    let w := httpError w "OMG Error!" status
    let d := ((log.WithField "status" (.int status)).WithField "duration"
      (.seconds elapsed)).Info
    ⟨log, w, [l, d], slept, s⟩
  else
    let w := w.Write (bytes "b = :-) ")
    let d := ((log.WithField "status" (.int status)).WithField "duration"
      (.seconds elapsed)).Info
    ⟨log, w, [d], slept, s⟩

/-- The closure returned by `slowWorkHandler(log)`. -/
def slowWorkHandler (log : Entry) (w : ResponseWriter) (r : Request) (src : Source)
    (elapsed : Nat) : Outcome :=
  let id := headerGet r.Header "X-Request-ID"
  let log := log.WithFields
    [("method", .str r.Method), ("path", .str r.URL), ("request_id", .str id)]
  let s := 100 + src.Intn 200
  let slept := s * Millisecond
  let w := w.Write (bytes "b = 🐢 ")
  let d := ((log.WithField "status" (.int StatusOK)).WithField "duration"
    (.seconds elapsed)).Info
  ⟨log, w, [d], slept, s⟩

/-! ## prometheus, promhttp, os, strconv -/

/-- `strconv.Itoa` on a status code. -/
def Itoa (n : Nat) : String :=
  toString n

/-- `os.Getenv(key)`: the value of the variable, `""` when it is not set.
The environment maps a name to its value when the variable is set. -/
def Getenv (env : String → Option String) (key : String) : String :=
  (env key).getD ""

/-- A `prometheus.GaugeVec` with the one label `port`: the series that exist,
by label value, each with its current value. -/
abbrev GaugeVec := List (String × Nat)

/-- `info.WithLabelValues(port).Set(x)`: creates the series when it does not
exist and sets its value. -/
def gaugeSet : GaugeVec → String → Nat → GaugeVec
  | [], port, x => [(port, x)]
  | (p, y) :: rest, port, x =>
    if p = port then (p, x) :: rest else (p, y) :: gaugeSet rest port x

/-- A `prometheus.HistogramVec` with the labels `handler` and `code`: the
series that exist, by label values, each with the values observed so far
(nanoseconds). -/
abbrev HistogramVec := List ((String × String) × List Nat)

/-- `durs.WithLabelValues(handler, code)`: creates the series when it does not
exist. -/
def WithLabelValues (durs : HistogramVec) (handler code : String) : HistogramVec :=
  if durs.any (fun e => e.1 = (handler, code)) then durs
  else durs ++ [((handler, code), [])]

/-- `durs.WithLabelValues(handler, code).Observe(x)`. -/
def observe (durs : HistogramVec) (handler code : String) (x : Nat) : HistogramVec :=
  (WithLabelValues durs handler code).map
    (fun e => if e.1 = (handler, code) then (e.1, e.2 ++ [x]) else e)

/-- The label pairs that have a series. -/
def seriesKeys (durs : HistogramVec) : List (String × String) :=
  durs.map Prod.fst

/-! ## main and the served requests -/

/-- The process once `main` has reached `http.ListenAndServe`. -/
structure Server where
  /-- the listen port -/
  port : String
  /-- the gauge `program_info` -/
  info : GaugeVec
  /-- the histogram `http_request_duration_seconds` -/
  durs : HistogramVec
  /-- variable `log` captured by the closure `workHandler(log)` -/
  workLog : Entry
  /-- variable `log` captured by the closure `slowWorkHandler(log)` -/
  slowLog : Entry
  /-- log lines emitted so far -/
  out : List LogLine
  deriving DecidableEq, Repr

/-- The function `main` up to the call of `http.ListenAndServe`. -/
def main (env : String → Option String) : Server :=
  let log := logrusWithField "app" (.str "serviceb")
  let port := Getenv env "PORT"
  let port := if port = "" then "8081" else port
  let info : GaugeVec := []
  let info := gaugeSet info port 1
  let durs : HistogramVec := []
  let durs := WithLabelValues durs "regularWork" (Itoa StatusOK)
  let durs := WithLabelValues durs "regularWork" (Itoa StatusBadRequest)
  let durs := WithLabelValues durs "slowWork" (Itoa StatusOK)
  let durs := WithLabelValues durs "slowWork" (Itoa StatusBadRequest)
  let l := log.InfoMsg ("Listening at: http://localhost:" ++ port)
  ⟨port, info, durs, log, log, [l]⟩

/-- The route a request is dispatched to: `/` or `/slow`. -/
inductive Route where
  | work
  | slow
  deriving DecidableEq, Repr

/-- One served request: its route, the request, the random source when the
handler draws, the time the handler measures (`elapsed`) and the time the
instrumentation measures (`total`), in nanoseconds. -/
structure Call where
  route : Route
  r : Request
  src : Source
  elapsed : Nat
  total : Nat

/-- The handler closure registered for the route, run on the current value of
its captured variable and a fresh response writer. -/
def Server.handle (sv : Server) (c : Call) : Outcome :=
  match c.route with
  | .work => workHandler sv.workLog ResponseWriter.fresh c.r c.src c.elapsed
  | .slow => slowWorkHandler sv.slowLog ResponseWriter.fresh c.r c.src c.elapsed

/-- The handler label the route was curried with in `main`. -/
def Route.label : Route → String
  | .work => "regularWork"
  | .slow => "slowWork"

/-- One request through `promhttp.InstrumentHandlerDuration`: runs the handler,
then observes the duration under the route label and the status code of the
response. -/
def Server.serve (sv : Server) (c : Call) : Server :=
  let o := sv.handle c
  let durs := observe sv.durs c.route.label (Itoa o.w.code) c.total
  match c.route with
  | .work => { sv with durs := durs, workLog := o.log, out := sv.out ++ o.lines }
  | .slow => { sv with durs := durs, slowLog := o.log, out := sv.out ++ o.lines }

/-- Requests served one after another. -/
def Server.run (sv : Server) (cs : List Call) : Server :=
  cs.foldl Server.serve sv

/-- A log line without its `duration` field. -/
def dropDuration (l : LogLine) : LogLine :=
  { l with data := l.data.filter (fun kv => kv.1 ≠ "duration") }

/-- The environment in which `PORT` is not set. -/
def envUnset : String → Option String :=
  fun _ => none

/-- The environment in which only `PORT` is set, to `p`. -/
def envPort (p : String) : String → Option String :=
  fun k => if k = "PORT" then some p else none

/-- A request `GET /` with the request id `abc`. -/
def sampleRequest : Request :=
  ⟨"GET", "/", [("X-Request-Id", ["abc"])]⟩

/-- A request `GET /slow` without a request id. -/
def sampleSlowRequest : Request :=
  ⟨"GET", "/slow", []⟩

/-- The logger `main` passes to both handlers. -/
def appLog : Entry :=
  logrusWithField "app" (.str "serviceb")

/-- The fields every line of the regular handler carries for the request `r`
and the draw `s`, before `status` and `duration`. -/
def workFields (r : Request) (s : Nat) : Fields :=
  [("app", .str "serviceb"), ("method", .str r.Method), ("path", .str r.URL),
    ("request_id", .str (headerGet r.Header "X-Request-ID")), ("s", .int s)]

/-- The fields the line of the slow handler carries for the request `r`, before
`status` and `duration`. -/
def slowFields (r : Request) : Fields :=
  [("app", .str "serviceb"), ("method", .str r.Method), ("path", .str r.URL),
    ("request_id", .str (headerGet r.Header "X-Request-ID"))]

/-- What the variable `log` of the closure `workHandler(log)` holds between
requests: the logger of `main`, or that logger with the four fields one request
has assigned. -/
def WorkLogInv (e : Entry) : Prop :=
  e.Data = [("app", .str "serviceb")] ∨
  ∃ m p i s, e.Data =
    [("app", .str "serviceb"), ("method", m), ("path", p), ("request_id", i), ("s", s)]

/-- What the variable `log` of the closure `slowWorkHandler(log)` holds between
requests. -/
def SlowLogInv (e : Entry) : Prop :=
  e.Data = [("app", .str "serviceb")] ∨
  ∃ m p i, e.Data = [("app", .str "serviceb"), ("method", m), ("path", p), ("request_id", i)]

/-! ## Facts about one run of a handler -/

theorem workHandler_s (log : Entry) (w : ResponseWriter) (r : Request) (src : Source)
    (elapsed : Nat) : (workHandler log w r src elapsed).s = src.Intn 99 + 1 := by
  unfold workHandler
  dsimp only
  split <;> rfl

theorem workHandler_slept (log : Entry) (w : ResponseWriter) (r : Request) (src : Source)
    (elapsed : Nat) :
    (workHandler log w r src elapsed).slept = (src.Intn 99 + 1) * Millisecond := by
  unfold workHandler
  dsimp only
  split <;> rfl

theorem workHandler_code (log : Entry) (r : Request) (src : Source) (elapsed : Nat) :
    (workHandler log ResponseWriter.fresh r src elapsed).w.code =
      if src.Intn 99 + 1 ≤ 25 then 500 else 200 := by
  unfold workHandler
  dsimp only
  split <;> rfl

theorem workHandler_body (log : Entry) (r : Request) (src : Source) (elapsed : Nat) :
    (workHandler log ResponseWriter.fresh r src elapsed).w.body =
      if src.Intn 99 + 1 ≤ 25 then bytes "OMG Error!\n" else bytes "b = :-) " := by
  unfold workHandler
  dsimp only
  split <;> rfl

theorem workHandler_lines_length (log : Entry) (w : ResponseWriter) (r : Request)
    (src : Source) (elapsed : Nat) :
    (workHandler log w r src elapsed).lines.length =
      if src.Intn 99 + 1 ≤ 25 then 2 else 1 := by
  unfold workHandler
  dsimp only
  split <;> rfl

theorem slowWorkHandler_s (log : Entry) (w : ResponseWriter) (r : Request) (src : Source)
    (elapsed : Nat) : (slowWorkHandler log w r src elapsed).s = 100 + src.Intn 200 :=
  rfl

theorem getField_setField_same (d : Fields) (k : String) (v : Value) :
    getField (setField d k v) k = some v := by
  induction d with
  | nil => simp [setField, getField, List.lookup]
  | cons kv rest ih =>
    obtain ⟨k1, v1⟩ := kv
    unfold setField
    split
    · simp [getField, List.lookup]
    · rename_i hne
      have hb : (k == k1) = false := by
        simpa using fun h : k = k1 => hne h.symm
      simpa [getField, List.lookup, hb] using ih

theorem getField_setField_ne (d : Fields) (k j : String) (v : Value) (hne : j ≠ k) :
    getField (setField d j v) k = getField d k := by
  induction d with
  | nil =>
    have hb : (k == j) = false := by
      simpa using fun h : k = j => hne h.symm
    simp [setField, getField, List.lookup, hb]
  | cons kv rest ih =>
    obtain ⟨k1, v1⟩ := kv
    unfold setField
    split
    · rename_i heq
      subst heq
      have hb : (k == k1) = false := by
        simpa using fun h : k = k1 => hne h.symm
      simp [getField, List.lookup, hb]
    · by_cases hk : k = k1
      · subst hk
        simp [getField, List.lookup]
      · have hb : (k == k1) = false := by simpa using hk
        simpa [getField, List.lookup, hb] using ih

/-- The `status` field of the line the deferred function emits. -/
theorem deferred_status (log : Entry) (status : Value) (elapsed : Nat) :
    getField (((log.WithField "status" status).WithField "duration"
      (.seconds elapsed)).Info).data "status" = some status := by
  simp only [Entry.Info, Entry.WithField, Entry.WithFields, List.foldl]
  rw [getField_setField_ne _ _ _ _ (by decide), getField_setField_same]

theorem Entry.Info_level (e : Entry) : e.Info.level = Level.info :=
  rfl

theorem Entry.Error_level (e : Entry) (msg : String) : (e.Error msg).level = Level.error :=
  rfl

theorem workHandler_lines (log : Entry) (w : ResponseWriter) (r : Request) (src : Source)
    (elapsed : Nat) :
    ∃ e : Entry, (workHandler log w r src elapsed).lines =
      if src.Intn 99 + 1 ≤ 25 then
        [e.Error "OMG Error!",
          ((e.WithField "status" (.int 500)).WithField "duration" (.seconds elapsed)).Info]
      else [((e.WithField "status" (.int 200)).WithField "duration" (.seconds elapsed)).Info] := by
  unfold workHandler
  dsimp only
  split
  · exact ⟨_, rfl⟩
  · exact ⟨_, rfl⟩

theorem slowWorkHandler_lines (log : Entry) (w : ResponseWriter) (r : Request) (src : Source)
    (elapsed : Nat) :
    ∃ e : Entry, (slowWorkHandler log w r src elapsed).lines =
      [((e.WithField "status" (.int 200)).WithField "duration" (.seconds elapsed)).Info] :=
  ⟨_, rfl⟩

theorem slowWorkHandler_code (log : Entry) (r : Request) (src : Source) (elapsed : Nat) :
    (slowWorkHandler log ResponseWriter.fresh r src elapsed).w.code = 200 :=
  rfl

theorem workHandler_step (log : Entry) (w : ResponseWriter) (r : Request) (src : Source)
    (elapsed : Nat) (h : WorkLogInv log) :
    (workHandler log w r src elapsed).log.Data = workFields r (src.Intn 99 + 1) ∧
    (workHandler log w r src elapsed).lines.map dropDuration =
      if src.Intn 99 + 1 ≤ 25 then
        [⟨Level.error, "OMG Error!", workFields r (src.Intn 99 + 1)⟩,
          ⟨Level.info, "", workFields r (src.Intn 99 + 1) ++ [("status", .int 500)]⟩]
      else [⟨Level.info, "", workFields r (src.Intn 99 + 1) ++ [("status", .int 200)]⟩] := by
  obtain ⟨d⟩ := log
  rcases h with h | ⟨m, p, i, s, h⟩
  · simp only at h
    subst h
    unfold workHandler
    dsimp only
    split <;>
      simp [Entry.WithFields, Entry.WithField, setField, dropDuration, Entry.Error,
        Entry.Info, List.filter, workFields, StatusOK, StatusInternalServerError]
  · simp only at h
    subst h
    unfold workHandler
    dsimp only
    split <;>
      simp [Entry.WithFields, Entry.WithField, setField, dropDuration, Entry.Error,
        Entry.Info, List.filter, workFields, StatusOK, StatusInternalServerError]

theorem slowWorkHandler_step (log : Entry) (w : ResponseWriter) (r : Request) (src : Source)
    (elapsed : Nat) (h : SlowLogInv log) :
    (slowWorkHandler log w r src elapsed).log.Data = slowFields r ∧
    (slowWorkHandler log w r src elapsed).lines.map dropDuration =
      [⟨Level.info, "", slowFields r ++ [("status", .int 200)]⟩] := by
  obtain ⟨d⟩ := log
  rcases h with h | ⟨m, p, i, h⟩
  · simp only at h
    subst h
    simp [slowWorkHandler, Entry.WithFields, Entry.WithField, setField, dropDuration,
      Entry.Info, List.filter, slowFields, StatusOK]
  · simp only at h
    subst h
    simp [slowWorkHandler, Entry.WithFields, Entry.WithField, setField, dropDuration,
      Entry.Info, List.filter, slowFields, StatusOK]

theorem serve_inv (sv : Server) (c : Call) (h : WorkLogInv sv.workLog ∧ SlowLogInv sv.slowLog) :
    WorkLogInv (sv.serve c).workLog ∧ SlowLogInv (sv.serve c).slowLog := by
  obtain ⟨route, r, src, elapsed, total⟩ := c
  cases route with
  | work =>
    exact ⟨Or.inr ⟨.str r.Method, .str r.URL, .str (headerGet r.Header "X-Request-ID"),
      .int ((src.Intn 99 + 1 : Nat) : Int),
      (workHandler_step sv.workLog ResponseWriter.fresh r src elapsed h.1).1⟩, h.2⟩
  | slow =>
    exact ⟨h.1, Or.inr ⟨.str r.Method, .str r.URL, .str (headerGet r.Header "X-Request-ID"),
      (slowWorkHandler_step sv.slowLog ResponseWriter.fresh r src elapsed h.2).1⟩⟩

theorem run_inv (cs : List Call) (sv : Server)
    (h : WorkLogInv sv.workLog ∧ SlowLogInv sv.slowLog) :
    WorkLogInv (sv.run cs).workLog ∧ SlowLogInv (sv.run cs).slowLog := by
  induction cs generalizing sv with
  | nil => exact h
  | cons c cs ih => exact ih (sv.serve c) (serve_inv sv c h)

theorem main_inv (env : String → Option String) :
    WorkLogInv (main env).workLog ∧ SlowLogInv (main env).slowLog :=
  ⟨Or.inl rfl, Or.inl rfl⟩

/-- The logger of the regular handler once it carries the request and the draw. -/
theorem workHandler_lines_eq (log : Entry) (w : ResponseWriter) (r : Request) (src : Source)
    (elapsed : Nat) :
    (workHandler log w r src elapsed).lines =
      if src.Intn 99 + 1 ≤ 25 then
        [((log.WithFields [("method", .str r.Method), ("path", .str r.URL),
              ("request_id", .str (headerGet r.Header "X-Request-ID"))]).WithField "s"
              (.int ((src.Intn 99 + 1 : Nat) : Int))).Error "OMG Error!",
          ((((log.WithFields [("method", .str r.Method), ("path", .str r.URL),
              ("request_id", .str (headerGet r.Header "X-Request-ID"))]).WithField "s"
              (.int ((src.Intn 99 + 1 : Nat) : Int))).WithField "status" (.int 500)).WithField
              "duration" (.seconds elapsed)).Info]
      else
        [((((log.WithFields [("method", .str r.Method), ("path", .str r.URL),
              ("request_id", .str (headerGet r.Header "X-Request-ID"))]).WithField "s"
              (.int ((src.Intn 99 + 1 : Nat) : Int))).WithField "status" (.int 200)).WithField
              "duration" (.seconds elapsed)).Info] := by
  unfold workHandler
  dsimp only
  split <;> rfl

theorem slowWorkHandler_lines_eq (log : Entry) (w : ResponseWriter) (r : Request)
    (src : Source) (elapsed : Nat) :
    (slowWorkHandler log w r src elapsed).lines =
      [(((log.WithFields [("method", .str r.Method), ("path", .str r.URL),
            ("request_id", .str (headerGet r.Header "X-Request-ID"))]).WithField "status"
            (.int 200)).WithField "duration" (.seconds elapsed)).Info] :=
  rfl

/-! ## The claims -/

/-- C1: for every state of the random source the regular handler sleeps exactly
`s` milliseconds for its draw `s`, answers 500 exactly when `s ≤ 25` and 200
otherwise; so a failing draw lies in `[1, 25]` and a succeeding one in
`[26, 100]`. -/
theorem workHandler_delay_and_status (log : Entry) (r : Request) (src : Source)
    (elapsed : Nat) :
    (workHandler log ResponseWriter.fresh r src elapsed).s = src.Intn 99 + 1 ∧
    (workHandler log ResponseWriter.fresh r src elapsed).slept =
      (workHandler log ResponseWriter.fresh r src elapsed).s * Millisecond ∧
    ((workHandler log ResponseWriter.fresh r src elapsed).w.code = 500 ↔
      (workHandler log ResponseWriter.fresh r src elapsed).s ≤ 25) ∧
    ((workHandler log ResponseWriter.fresh r src elapsed).w.code = 200 ↔
      ¬ (workHandler log ResponseWriter.fresh r src elapsed).s ≤ 25) ∧
    ((workHandler log ResponseWriter.fresh r src elapsed).w.code = 500 →
      1 ≤ (workHandler log ResponseWriter.fresh r src elapsed).s ∧
      (workHandler log ResponseWriter.fresh r src elapsed).s ≤ 25) ∧
    ((workHandler log ResponseWriter.fresh r src elapsed).w.code = 200 →
      26 ≤ (workHandler log ResponseWriter.fresh r src elapsed).s ∧
      (workHandler log ResponseWriter.fresh r src elapsed).s ≤ 100) := by
  have hlt := src.Intn_lt 99 (by decide)
  rw [workHandler_s, workHandler_slept, workHandler_code]
  refine ⟨rfl, rfl, ?_, ?_, ?_, ?_⟩ <;> split_ifs <;> omega

/-- Witness of C1: the draw 10 fails and lies in `[1, 25]`, after 10 ms. -/
theorem workHandler_delay_and_status_witness :
    (workHandler appLog ResponseWriter.fresh sampleRequest (Source.returning 9) 5).w.code = 500 ∧
    (workHandler appLog ResponseWriter.fresh sampleRequest (Source.returning 9) 5).slept =
      10 * Millisecond ∧
    1 ≤ (workHandler appLog ResponseWriter.fresh sampleRequest (Source.returning 9) 5).s ∧
    (workHandler appLog ResponseWriter.fresh sampleRequest (Source.returning 9) 5).s ≤ 25 :=
  ⟨by decide, by decide,
    (workHandler_delay_and_status appLog sampleRequest (Source.returning 9) 5).2.2.2.2.1
      (by decide)⟩

/-- C2: the draw of the regular handler is `rand.Intn(99) + 1`, so it lies in
`1..99`: the values it takes are exactly `1, ..., 99` and no state of the
random source gives the draw 100. -/
theorem workHandler_draw_never_100 (log : Entry) (w : ResponseWriter) (r : Request)
    (elapsed : Nat) :
    (∀ src : Source, 1 ≤ (workHandler log w r src elapsed).s ∧
      (workHandler log w r src elapsed).s ≤ 99) ∧
    (intnValues 99).map (fun v => (workHandler log w r (Source.returning v) elapsed).s) =
      List.range' 1 99 ∧
    ¬ ∃ src : Source, (workHandler log w r src elapsed).s = 100 := by
  refine ⟨fun src => ?_, ?_, ?_⟩
  · have hlt := src.Intn_lt 99 (by decide)
    rw [workHandler_s]
    omega
  · simp only [workHandler_s]
    decide
  · rintro ⟨src, h⟩
    have hlt := src.Intn_lt 99 (by decide)
    rw [workHandler_s] at h
    omega

/-- C3: of the 99 equally likely values `rand.Intn(99)` returns, 25 take the
failure branch, and `25 * 4` is not 99. -/
theorem workHandler_failing_share (log : Entry) (r : Request) (elapsed : Nat) :
    ((intnValues 99).filter (fun v =>
      (workHandler log ResponseWriter.fresh r (Source.returning v) elapsed).w.code = 500)).length
      = 25 ∧
    (intnValues 99).length = 99 ∧
    ((intnValues 99).filter (fun v =>
      (workHandler log ResponseWriter.fresh r (Source.returning v) elapsed).w.code = 500)).length
      * 4 ≠ (intnValues 99).length := by
  simp only [workHandler_code]
  decide

/-- C4: for every state of the random source the slow handler sleeps
`100 + d` milliseconds for its draw `d = rand.Intn(200)`, a delay in
`[100, 300)` that is never 300; it answers 200 with the body `b = 🐢 `; and
every `d < 200` is a draw. -/
theorem slowWorkHandler_delay_and_status (log : Entry) (r : Request) (src : Source)
    (elapsed : Nat) :
    (slowWorkHandler log ResponseWriter.fresh r src elapsed).slept =
      (100 + src.Intn 200) * Millisecond ∧
    100 * Millisecond ≤ (slowWorkHandler log ResponseWriter.fresh r src elapsed).slept ∧
    (slowWorkHandler log ResponseWriter.fresh r src elapsed).slept < 300 * Millisecond ∧
    (slowWorkHandler log ResponseWriter.fresh r src elapsed).slept ≠ 300 * Millisecond ∧
    (slowWorkHandler log ResponseWriter.fresh r src elapsed).w.code = 200 ∧
    (slowWorkHandler log ResponseWriter.fresh r src elapsed).w.body = bytes "b = 🐢 " ∧
    (∀ d, d < 200 →
      (slowWorkHandler log ResponseWriter.fresh r (Source.returning d) elapsed).slept =
        (100 + d) * Millisecond) := by
  have hlt := src.Intn_lt 200 (by decide)
  have hs : (slowWorkHandler log ResponseWriter.fresh r src elapsed).slept =
      (100 + src.Intn 200) * Millisecond := rfl
  rw [hs]
  refine ⟨rfl, ?_, ?_, ?_, rfl, rfl, fun d hd => ?_⟩
  · unfold Millisecond; omega
  · unfold Millisecond; omega
  · unfold Millisecond; omega
  · show (100 + d % 200) * Millisecond = (100 + d) * Millisecond
    rw [Nat.mod_eq_of_lt hd]

/-- Witness of C4: the draw 50 gives a delay of 150 ms. -/
theorem slowWorkHandler_delay_and_status_witness :
    (50 < 200) ∧
    (slowWorkHandler appLog ResponseWriter.fresh sampleSlowRequest (Source.returning 50) 5).slept =
      150 * Millisecond :=
  ⟨by decide,
    (slowWorkHandler_delay_and_status appLog sampleSlowRequest (Source.returning 50) 5).2.2.2.2.2.2
      50 (by decide)⟩

/-- C5, as stated, fails: on the draw 10 the body is not the byte string
`OMG Error!`. -/
theorem workHandler_error_body_counterexample :
    (workHandler appLog ResponseWriter.fresh sampleRequest (Source.returning 9) 5).s = 10 ∧
    (workHandler appLog ResponseWriter.fresh sampleRequest (Source.returning 9) 5).w.body ≠
      bytes "OMG Error!" := by
  decide

/-- C5, amended: the body is `OMG Error!` followed by one newline byte on the
failure branch and `b = :-) ` on the success branch, and nothing else. -/
theorem workHandler_body_bytes (log : Entry) (r : Request) (src : Source) (elapsed : Nat) :
    (workHandler log ResponseWriter.fresh r src elapsed).w.body =
      if (workHandler log ResponseWriter.fresh r src elapsed).s ≤ 25
      then bytes "OMG Error!" ++ [10] else bytes "b = :-) " := by
  rw [workHandler_s, workHandler_body]
  split_ifs
  · decide
  · rfl

/-- C6: after `main` the label pairs with a series are `(regularWork, 200)`,
`(regularWork, 400)`, `(slowWork, 200)` and `(slowWork, 400)`; the pair
`(regularWork, 500)`, under which a failing request to `/` is observed, is not
among them. -/
theorem main_pretouched_series (env : String → Option String) :
    seriesKeys (main env).durs =
      [("regularWork", "200"), ("regularWork", "400"),
        ("slowWork", "200"), ("slowWork", "400")] ∧
    ("regularWork", "500") ∉ seriesKeys (main env).durs ∧
    ("slowWork", "500") ∉ seriesKeys (main env).durs ∧
    (Route.work.label,
      Itoa ((main env).handle ⟨Route.work, sampleRequest, Source.returning 9, 5, 6⟩).w.code) =
      ("regularWork", "500") ∧
    seriesKeys ((main env).serve ⟨Route.work, sampleRequest, Source.returning 9, 5, 6⟩).durs =
      [("regularWork", "200"), ("regularWork", "400"),
        ("slowWork", "200"), ("slowWork", "400"), ("regularWork", "500")] := by
  have h : seriesKeys (main env).durs =
      [("regularWork", "200"), ("regularWork", "400"),
        ("slowWork", "200"), ("slowWork", "400")] := rfl
  have hc : ((main env).handle
      ⟨Route.work, sampleRequest, Source.returning 9, 5, 6⟩).w.code = 500 := by
    show (workHandler (main env).workLog ResponseWriter.fresh sampleRequest
      (Source.returning 9) 5).w.code = 500
    rw [workHandler_code]
    rfl
  refine ⟨h, ?_, ?_, ?_, ?_⟩
  · rw [h]; decide
  · rw [h]; decide
  · rw [hc]; rfl
  · unfold Server.serve
    dsimp only
    rw [hc]
    rfl

/-- C7: in both handlers the `status` field of the info-level completion line
is the status code of the response: 500 exactly when the regular handler took
the error path, 200 otherwise. -/
theorem completion_log_status (log : Entry) (r : Request) (src : Source) (elapsed : Nat) :
    (((workHandler log ResponseWriter.fresh r src elapsed).lines.filter
        (fun l => l.level = Level.info)).map (fun l => getField l.data "status") =
      [some (Value.int (workHandler log ResponseWriter.fresh r src elapsed).w.code)]) ∧
    ((workHandler log ResponseWriter.fresh r src elapsed).w.code =
      if (workHandler log ResponseWriter.fresh r src elapsed).s ≤ 25 then 500 else 200) ∧
    (((slowWorkHandler log ResponseWriter.fresh r src elapsed).lines.filter
        (fun l => l.level = Level.info)).map (fun l => getField l.data "status") =
      [some (Value.int (slowWorkHandler log ResponseWriter.fresh r src elapsed).w.code)]) ∧
    (slowWorkHandler log ResponseWriter.fresh r src elapsed).w.code = 200 := by
  obtain ⟨e, he⟩ := workHandler_lines log ResponseWriter.fresh r src elapsed
  obtain ⟨e2, he2⟩ := slowWorkHandler_lines log ResponseWriter.fresh r src elapsed
  rw [he, he2, workHandler_code, workHandler_s, slowWorkHandler_code]
  refine ⟨?_, rfl, ?_, rfl⟩
  · split_ifs
    · simp [List.filter, Entry.Info_level, Entry.Error_level, deferred_status]
    · simp [List.filter, Entry.Info_level, deferred_status]
  · simp [List.filter, Entry.Info_level, deferred_status]

/-- C8, as stated, fails: on the draw 10 the regular handler emits two log
lines, not one. -/
theorem workHandler_two_lines_counterexample :
    (workHandler appLog ResponseWriter.fresh sampleRequest (Source.returning 9) 5).lines.length
      ≠ 1 := by
  decide

/-- C8, amended: every request produces exactly one info-level completion
line, emitted last, with an empty message and the fields `status` (500 on the
failure branch of the regular handler, 200 otherwise) and `duration` (the
elapsed time); a failing request to the regular handler produces before it one
error-level line with the message `OMG Error!` (two lines in all), every other
request no other line. Every line carries `method`, `path`, `request_id` of
the request, and `s` in the regular handler. -/
theorem handler_log_lines (log : Entry) (w : ResponseWriter) (r : Request) (src : Source)
    (elapsed : Nat) :
    ((workHandler log w r src elapsed).lines.map (fun l => l.level) =
      if (workHandler log w r src elapsed).s ≤ 25 then [Level.error, Level.info]
      else [Level.info]) ∧
    ((workHandler log w r src elapsed).lines.filter (fun l => l.level = Level.info)).length
      = 1 ∧
    ((workHandler log w r src elapsed).lines.length =
      if (workHandler log w r src elapsed).s ≤ 25 then 2 else 1) ∧
    (slowWorkHandler log w r src elapsed).lines.map (fun l => l.level) = [Level.info] ∧
    (slowWorkHandler log w r src elapsed).lines.length = 1 ∧
    ((workHandler log w r src elapsed).lines.map (fun l => l.msg) =
      if (workHandler log w r src elapsed).s ≤ 25 then ["OMG Error!", ""] else [""]) ∧
    (((workHandler log w r src elapsed).lines.filter (fun l => l.level = Level.info)).map
        (fun l => (getField l.data "status", getField l.data "duration")) =
      [(some (Value.int (if (workHandler log w r src elapsed).s ≤ 25 then 500 else 200)),
        some (Value.seconds elapsed))]) ∧
    ((workHandler log w r src elapsed).lines.map
        (fun l => (getField l.data "method", getField l.data "path",
          getField l.data "request_id", getField l.data "s")) =
      List.replicate (if (workHandler log w r src elapsed).s ≤ 25 then 2 else 1)
        (some (Value.str r.Method), some (Value.str r.URL),
          some (Value.str (headerGet r.Header "X-Request-ID")),
          some (Value.int ((workHandler log w r src elapsed).s : Nat)))) ∧
    (slowWorkHandler log w r src elapsed).lines.map (fun l => l.msg) = [""] ∧
    ((slowWorkHandler log w r src elapsed).lines.map
        (fun l => (getField l.data "status", getField l.data "duration")) =
      [(some (Value.int 200), some (Value.seconds elapsed))]) ∧
    ((slowWorkHandler log w r src elapsed).lines.map
        (fun l => (getField l.data "method", getField l.data "path",
          getField l.data "request_id")) =
      [(some (Value.str r.Method), some (Value.str r.URL),
        some (Value.str (headerGet r.Header "X-Request-ID")))]) := by
  rw [workHandler_lines_eq, workHandler_s, slowWorkHandler_lines_eq]
  refine ⟨?_, ?_, ?_, rfl, rfl, ?_, ?_, ?_, rfl, ?_, ?_⟩
  · split_ifs <;> rfl
  · split_ifs <;> rfl
  · split_ifs <;> rfl
  · split_ifs <;> rfl
  · split_ifs <;>
      simp (disch := decide) [List.filter, Entry.Info, Entry.Error, Entry.WithField,
        Entry.WithFields, getField_setField_ne, getField_setField_same]
  · split_ifs <;>
      simp (disch := decide) [List.replicate, Entry.Info, Entry.Error, Entry.WithField,
        Entry.WithFields, getField_setField_ne, getField_setField_same]
  · simp (disch := decide) [Entry.Info, Entry.WithField, Entry.WithFields,
      getField_setField_ne, getField_setField_same]
  · simp (disch := decide) [Entry.Info, Entry.WithField, Entry.WithFields,
      getField_setField_ne, getField_setField_same]

/-- C9: the listen port is `8081` exactly when `PORT` is unset, empty or
`8081`; a non-empty `PORT` is the port unchanged; and `program_info` has the
one series labelled with the port, with value 1. -/
theorem main_port (env : String → Option String) :
    ((main env).port = "8081" ↔
      (env "PORT" = none ∨ env "PORT" = some "" ∨ env "PORT" = some "8081")) ∧
    (∀ p : String, p ≠ "" → env "PORT" = some p → (main env).port = p) ∧
    (main env).info = [((main env).port, 1)] := by
  have hp : (main env).port = if Getenv env "PORT" = "" then "8081" else Getenv env "PORT" :=
    rfl
  refine ⟨?_, ?_, rfl⟩
  · rw [hp]
    unfold Getenv
    cases h : env "PORT" with
    | none => simp
    | some v =>
      by_cases hv : v = ""
      · simp [hv]
      · simp [hv]
  · intro p hne h
    rw [hp]
    unfold Getenv
    simp [h, hne]

/-- Witness of C9: with `PORT` unset the port is `8081` and
`program_info` is 1 under `port="8081"`; with `PORT=9000` the port is `9000`. -/
theorem main_port_witness :
    (main envUnset).port = "8081" ∧ (main envUnset).info = [("8081", 1)] ∧
    ("9000" ≠ "" ∧ envPort "9000" "PORT" = some "9000" ∧ (main (envPort "9000")).port = "9000") :=
  ⟨((main_port envUnset).1).2 (Or.inl rfl), by decide, by decide, by decide,
    (main_port (envPort "9000")).2.1 "9000" (by decide) (by decide)⟩

/-- C10: a handler assigns to the variable `log` its closure captured, so
after a request that variable holds the fields of that request; still, for
requests served one after another, the lines a request emits carry (duration
aside) the fields `app`, `method`, `path`, `request_id`, `s` for the regular
handler, and `status`, with the values of that request and its draw: they are
the same after any two histories. -/
theorem log_fields_of_request_only (env : String → Option String) (h1 h2 : List Call)
    (r : Request) (src : Source) (e1 e2 t1 t2 : Nat) :
    ((((main env).run h1).handle ⟨Route.work, r, src, e1, t1⟩).lines.map dropDuration =
      (((main env).run h2).handle ⟨Route.work, r, src, e2, t2⟩).lines.map dropDuration) ∧
    ((((main env).run h1).handle ⟨Route.slow, r, src, e1, t1⟩).lines.map dropDuration =
      (((main env).run h2).handle ⟨Route.slow, r, src, e2, t2⟩).lines.map dropDuration) ∧
    ((((main env).run h1).handle ⟨Route.work, r, src, e1, t1⟩).lines.map dropDuration =
      if src.Intn 99 + 1 ≤ 25 then
        [⟨Level.error, "OMG Error!",
            [("app", .str "serviceb"), ("method", .str r.Method), ("path", .str r.URL),
              ("request_id", .str (headerGet r.Header "X-Request-ID")),
              ("s", .int ((src.Intn 99 + 1 : Nat) : Int))]⟩,
          ⟨Level.info, "",
            [("app", .str "serviceb"), ("method", .str r.Method), ("path", .str r.URL),
              ("request_id", .str (headerGet r.Header "X-Request-ID")),
              ("s", .int ((src.Intn 99 + 1 : Nat) : Int)), ("status", .int 500)]⟩]
      else
        [⟨Level.info, "",
            [("app", .str "serviceb"), ("method", .str r.Method), ("path", .str r.URL),
              ("request_id", .str (headerGet r.Header "X-Request-ID")),
              ("s", .int ((src.Intn 99 + 1 : Nat) : Int)), ("status", .int 200)]⟩]) ∧
    ((((main env).run h1).handle ⟨Route.slow, r, src, e1, t1⟩).lines.map dropDuration =
      [⟨Level.info, "",
          [("app", .str "serviceb"), ("method", .str r.Method), ("path", .str r.URL),
            ("request_id", .str (headerGet r.Header "X-Request-ID")),
            ("status", .int 200)]⟩]) ∧
    ((((main env).run h1).serve ⟨Route.work, r, src, e1, t1⟩).workLog.Data =
      [("app", .str "serviceb"), ("method", .str r.Method), ("path", .str r.URL),
        ("request_id", .str (headerGet r.Header "X-Request-ID")),
        ("s", .int ((src.Intn 99 + 1 : Nat) : Int))]) ∧
    ((((main env).run h1).serve ⟨Route.slow, r, src, e1, t1⟩).slowLog.Data =
      [("app", .str "serviceb"), ("method", .str r.Method), ("path", .str r.URL),
        ("request_id", .str (headerGet r.Header "X-Request-ID"))]) := by
  have i1 := run_inv h1 (main env) (main_inv env)
  have i2 := run_inv h2 (main env) (main_inv env)
  have w1 := workHandler_step ((main env).run h1).workLog ResponseWriter.fresh r src e1 i1.1
  have w2 := workHandler_step ((main env).run h2).workLog ResponseWriter.fresh r src e2 i2.1
  have s1 := slowWorkHandler_step ((main env).run h1).slowLog ResponseWriter.fresh r src e1 i1.2
  have s2 := slowWorkHandler_step ((main env).run h2).slowLog ResponseWriter.fresh r src e2 i2.2
  refine ⟨?_, ?_, ?_, ?_, ?_, ?_⟩
  · exact w1.2.trans w2.2.symm
  · exact s1.2.trans s2.2.symm
  · exact w1.2
  · exact s1.2
  · exact w1.1
  · exact s1.1

end Serviceb
